import Mathlib

/-!
# Verification of the immo-frog-backend reconciliation core

This file gives a shallow embedding, in Lean 4, of the reconciliation /
validation engine of the `immo-frog-backend` repository:

* the field comparator and issue categorizer
  (`src/utils/extractionCompare.js`),
* the correction applicator (`src/routes/cleanExtraction.js`:
  `applyIntelligentCorrections`, `applyFieldCorrection`, and the
  post-correction `getRecommendation`),
* the calculation auditor
  (`src/services/validatedClaudeService.js`: `validateCalculations`).

JavaScript values flowing through these functions are JSON-shaped data
(the records come out of `JSON.parse`), so they are modelled by the
inductive type `Json` below: `null`, booleans, exact rational numbers,
strings, arrays, and objects as ordered association lists (JavaScript
objects preserve insertion order for string keys, which is the order
`Object.keys` reports).  A JavaScript `undefined` — which is *not* a JSON
value but does appear as the result of reading an absent property — is
modelled as `Option Json` with `none` for `undefined` at the places where
the source can observe it.

Fallible code (property access on `undefined`/`null` throws a
`TypeError`) is modelled with `Option`: `none` is an uncaught exception.
-/

unseal Rat.add Rat.sub Rat.mul Rat.inv Rat.ofScientific

/-- A JSON value: the domain of records handled by the engine.  Numbers are
exact rationals (the extracted records carry decimal literals; no claim
depends on float rounding), objects are ordered association lists. -/
inductive Json where
  | null
  | bool (b : Bool)
  | num (q : ℚ)
  | str (s : String)
  | arr (elems : List Json)
  | obj (fields : List (String × Json))

mutual

/-- Structural equality test on JSON values. -/
def jeq : Json → Json → Bool
  | .null, .null => true
  | .bool a, .bool b => a == b
  | .num a, .num b => a == b
  | .str a, .str b => a == b
  | .arr xs, .arr ys => jeqArr xs ys
  | .obj xs, .obj ys => jeqObj xs ys
  | _, _ => false

/-- Elementwise equality test on JSON arrays. -/
def jeqArr : List Json → List Json → Bool
  | [], [] => true
  | x :: xs, y :: ys => jeq x y && jeqArr xs ys
  | _, _ => false

/-- Memberwise equality test on JSON objects. -/
def jeqObj : List (String × Json) → List (String × Json) → Bool
  | [], [] => true
  | (k1, v1) :: xs, (k2, v2) :: ys => k1 == k2 && jeq v1 v2 && jeqObj xs ys
  | _, _ => false

end

mutual

theorem jeq_eq : (a b : Json) → (jeq a b = true ↔ a = b)
  | .null, b => by cases b <;> simp [jeq]
  | .bool x, b => by cases b <;> simp [jeq]
  | .num x, b => by cases b <;> simp [jeq]
  | .str x, b => by cases b <;> simp [jeq]
  | .arr xs, b => by cases b with
    | arr ys => simpa [jeq] using jeqArr_eq xs ys
    | _ => simp [jeq]
  | .obj xs, b => by cases b with
    | obj ys => simpa [jeq] using jeqObj_eq xs ys
    | _ => simp [jeq]

theorem jeqArr_eq : (xs ys : List Json) → (jeqArr xs ys = true ↔ xs = ys)
  | [], [] => by simp [jeqArr]
  | [], _ :: _ => by simp [jeqArr]
  | _ :: _, [] => by simp [jeqArr]
  | x :: xs, y :: ys => by simp [jeqArr, jeq_eq x y, jeqArr_eq xs ys]

theorem jeqObj_eq : (xs ys : List (String × Json)) → (jeqObj xs ys = true ↔ xs = ys)
  | [], [] => by simp [jeqObj]
  | [], _ :: _ => by simp [jeqObj]
  | _ :: _, [] => by simp [jeqObj]
  | (k1, v1) :: xs, (k2, v2) :: ys => by
      simp [jeqObj, jeq_eq v1 v2, jeqObj_eq xs ys, and_assoc]

end

instance : DecidableEq Json := fun a b => decidable_of_iff _ (jeq_eq a b)

namespace Json

/-- JavaScript truthiness of a value: `null`, `false`, `0` and `""` are
falsy; every object and array is truthy. -/
def truthy : Json → Bool
  | .null => false
  | .bool b => b
  | .num q => q ≠ 0
  | .str s => s ≠ ""
  | .arr _ => true
  | .obj _ => true

/-- Truthiness of a possibly-`undefined` value (`undefined` is falsy). -/
def truthyOpt : Option Json → Bool
  | none => false
  | some v => truthy v

/-- First value bound to key `k` in an association list (JavaScript objects
hold each key once; on the model's lists the first occurrence wins, which
is also what property lookup on such a list would see). -/
def objGet (l : List (String × Json)) (k : String) : Option Json :=
  match l with
  | [] => none
  | (k1, v) :: rest => if k1 = k then some v else objGet rest k

/-- Property assignment `o[k] = v` on an object: an existing key keeps its
position and gets the new value, a new key is appended — JavaScript's
insertion-order semantics. -/
def objSet (l : List (String × Json)) (k : String) (v : Json) : List (String × Json) :=
  match l with
  | [] => [(k, v)]
  | (k1, w) :: rest => if k1 = k then (k1, v) :: rest else (k1, w) :: objSet rest k v

/-- Property read `j[k]` with a *string* key: objects use the association
list, arrays answer their numeric-string indices (`a["0"]` is `a[0]`),
every other value (and a missing key) yields `undefined` (`none`). -/
def jsonGet (j : Json) (k : String) : Option Json :=
  match j with
  | .obj l => objGet l k
  | .arr xs => (List.range xs.length).findSome? fun i => if toString i = k then xs[i]? else none
  | _ => none

/-- `Object.keys`: own enumerable keys in insertion order; for an array the
index strings; for primitives the empty list. -/
def jsonKeys : Json → List String
  | .obj l => l.map Prod.fst
  | .arr xs => (List.range xs.length).map toString
  | _ => []

end Json

/-! ## Canonical serialization (`JSON.stringify`)

The comparator decides "identical" by comparing `JSON.stringify` of both
sides.  The serializer below renders the model to a character list.  The
exact spelling of non-integer numbers (the source's engine prints decimal
floats) is immaterial to every claim; what the proofs use is only that the
first character of each constructor's rendering distinguishes it from
`"null"`. String escaping is limited to quote and backslash (control
characters never occur in the records under study). -/

/-- The decimal digit characters. -/
def digitChar (d : Nat) : Char :=
  match d with
  | 0 => '0' | 1 => '1' | 2 => '2' | 3 => '3' | 4 => '4'
  | 5 => '5' | 6 => '6' | 7 => '7' | 8 => '8' | _ => '9'

/-- Decimal digits, most significant first, onto an accumulator; `fuel`
bounds the recursion structurally (any `fuel > n` is enough). -/
def natDigitsAcc (fuel n : Nat) (acc : List Char) : List Char :=
  match fuel with
  | 0 => acc
  | fuel + 1 =>
      if n < 10 then digitChar n :: acc
      else natDigitsAcc fuel (n / 10) (digitChar (n % 10) :: acc)

/-- Decimal digits of a natural number, most significant first. -/
def natDigits (n : Nat) : List Char :=
  natDigitsAcc (n + 1) n []

/-- Rendering of an integer: optional minus sign, then digits. -/
def intChars (n : Int) : List Char :=
  if n < 0 then '-' :: natDigits n.natAbs else natDigits n.natAbs

/-- Rendering of a rational.  Integers render as JavaScript prints them;
a non-integer renders as `num/den` (the source prints decimals — the
textual form of non-integers is never inspected by a claim). -/
def ratChars (q : ℚ) : List Char :=
  if q.den = 1 then intChars q.num
  else intChars q.num ++ '/' :: natDigits q.den

/-- Minimal string escaping: quote and backslash. -/
def escChar (c : Char) : List Char :=
  if c = '\"' ∨ c = '\\' then ['\\', c] else [c]

mutual

/-- `JSON.stringify` of a value, as a character list. -/
def stringifyL : Json → List Char
  | .null => "null".data
  | .bool b => (if b then "true" else "false").data
  | .num q => ratChars q
  | .str s => '\"' :: (s.data.flatMap escChar ++ ['\"'])
  | .arr xs => '[' :: (stringifyArr xs ++ [']'])
  | .obj fs => '\x7b' :: (stringifyObj fs ++ ['\x7d'])

/-- Comma-separated renderings of array elements. -/
def stringifyArr : List Json → List Char
  | [] => []
  | [x] => stringifyL x
  | x :: y :: xs => stringifyL x ++ ',' :: stringifyArr (y :: xs)

/-- Comma-separated `"key":value` renderings of object members. -/
def stringifyObj : List (String × Json) → List Char
  | [] => []
  | [(k, v)] => '\"' :: (k.data.flatMap escChar ++ '\"' :: ':' :: stringifyL v)
  | (k, v) :: m :: fs =>
      ('\"' :: (k.data.flatMap escChar ++ '\"' :: ':' :: stringifyL v)) ++ ',' :: stringifyObj (m :: fs)

end

/-- `JSON.stringify` of a value, as a string. -/
def stringify (j : Json) : String := ⟨stringifyL j⟩

/-- `JSON.stringify` applied to a possibly-`undefined` argument:
`JSON.stringify(undefined)` is `undefined`, not a string. -/
def stringifyOpt : Option Json → Option String :=
  Option.map stringify

/-! ### `stringify` distinguishes `null` from every other value -/

theorem natDigitsAcc_cons (fuel : Nat) :
    ∀ n acc, n < fuel → ∃ d t, d < 10 ∧ natDigitsAcc fuel n acc = digitChar d :: t := by
  induction fuel with
  | zero => omega
  | succ fuel ih =>
    intro n acc hn
    rw [natDigitsAcc]
    split
    · exact ⟨n, acc, by assumption, rfl⟩
    · next h10 =>
        have h1 : n / 10 < n := Nat.div_lt_self (by omega) (by omega)
        exact ih (n / 10) (digitChar (n % 10) :: acc) (by omega)

theorem natDigits_cons (n : Nat) : ∃ d t, d < 10 ∧ natDigits n = digitChar d :: t :=
  natDigitsAcc_cons (n + 1) n [] (by omega)

theorem digitChar_ne_n (d : Nat) : digitChar d ≠ 'n' := by
  unfold digitChar; split <;> decide

theorem intChars_head_ne_n (n : Int) : ∃ c t, intChars n = c :: t ∧ c ≠ 'n' := by
  unfold intChars
  split
  · exact ⟨'-', natDigits n.natAbs, rfl, by decide⟩
  · obtain ⟨d, t, _, he⟩ := natDigits_cons n.natAbs
    exact ⟨digitChar d, t, by rw [he], digitChar_ne_n d⟩

theorem ratChars_head_ne_n (q : ℚ) : ∃ c t, ratChars q = c :: t ∧ c ≠ 'n' := by
  unfold ratChars
  obtain ⟨c, t, he, hc⟩ := intChars_head_ne_n q.num
  split
  · exact ⟨c, t, he, hc⟩
  · exact ⟨c, t ++ '/' :: natDigits q.den, by rw [he]; rfl, hc⟩

/-- Only `null` serializes to the text `null`: the head character of every
other constructor's rendering differs. -/
theorem stringify_eq_null (v : Json) (h : stringify v = "null") : v = Json.null := by
  cases v with
  | null => rfl
  | bool b =>
    cases b <;> simp only [stringify, stringifyL] at h <;> exact absurd h (by decide)
  | num q =>
    obtain ⟨c, t, he, hc⟩ := ratChars_head_ne_n q
    simp only [stringify, stringifyL, he] at h
    have : c :: t = "null".data := congrArg String.data h
    simp only [String.data] at this
    exact absurd (List.head_eq_of_cons_eq this) hc
  | str s =>
    simp only [stringify, stringifyL] at h
    have : ('\"' :: (s.data.flatMap escChar ++ ['\"'])) = "null".data := congrArg String.data h
    exact absurd (List.head_eq_of_cons_eq this) (by decide)
  | arr xs =>
    simp only [stringify, stringifyL] at h
    have : ('[' :: (stringifyArr xs ++ [']'])) = "null".data := congrArg String.data h
    exact absurd (List.head_eq_of_cons_eq this) (by decide)
  | obj fs =>
    simp only [stringify, stringifyL] at h
    have : ('\x7b' :: (stringifyObj fs ++ ['\x7d'])) = "null".data := congrArg String.data h
    exact absurd (List.head_eq_of_cons_eq this) (by decide)

/-! ## Number coercion (`Number(v)`) and substring search

`compareNumericField` runs both values through JavaScript's `Number`
coercion and checks the result with `isNaN`.  `none` below models `NaN`
(coercion failure).  String parsing covers the plain decimal literals the
records contain; exponents, hex, and surrounding whitespace never occur in
the data under study and are not modelled.  `Number` on arrays and objects
(which JavaScript answers through `toPrimitive`/`join`) is likewise
modelled as failure — no record field compared numerically holds one. -/

/-- Value of a nonempty all-digit character list, `none` otherwise. -/
def digitsVal (cs : List Char) : Option ℕ :=
  if cs ≠ [] ∧ cs.all Char.isDigit then
    some (cs.foldl (fun a c => a * 10 + (c.toNat - 48)) 0)
  else none

/-- Parse a plain decimal literal: optional minus sign, integer digits,
optional fractional digits.  The empty string coerces to `0`, as
`Number("")` does. -/
def parseDec (s : String) : Option ℚ :=
  if s = "" then some 0
  else
    let (neg, cs) :=
      match s.data with
      | '-' :: t => (true, t)
      | t => (false, t)
    let mag : Option ℚ :=
      match cs.splitOn '.' with
      | [i] => (digitsVal i).map fun n => (n : ℚ)
      | [i, f] =>
          match digitsVal i, digitsVal f with
          | some n, some m => some ((n : ℚ) + (m : ℚ) / (10 : ℚ) ^ f.length)
          | some n, none => if f = [] then some (n : ℚ) else none
          | none, some m => if i = [] then some ((m : ℚ) / (10 : ℚ) ^ f.length) else none
          | none, none => none
      | _ => none
    mag.map fun q => if neg then -q else q

/-- `Number(v)` for a JSON value; `none` is `NaN`. -/
def jsToNumber : Json → Option ℚ
  | .null => some 0
  | .bool b => some (if b then 1 else 0)
  | .num q => some q
  | .str s => parseDec s
  | .arr _ => none
  | .obj _ => none

/-- `Number(v)` where `v` may be `undefined` (`Number(undefined)` is `NaN`). -/
def toNumberOpt : Option Json → Option ℚ
  | none => none
  | some v => jsToNumber v

/-- Does the character list start with the given pattern? -/
def listStartsWith : List Char → List Char → Bool
  | _, [] => true
  | [], _ :: _ => false
  | h :: t, n :: m => h == n && listStartsWith t m

/-- Does the character list contain the pattern as a contiguous run? -/
def hasSub : List Char → List Char → Bool
  | [], needle => needle.isEmpty
  | h :: t, needle => listStartsWith (h :: t) needle || hasSub t needle

/-- `hay.includes(needle)` on strings. -/
def strContains (hay needle : String) : Bool :=
  hasSub hay.data needle.data

/-! ## The field comparator (`src/utils/extractionCompare.js`)

`compareField` / `compareNumericField` receive the two property reads,
which may be `undefined` (`Option Json` with `none`), thread a report
record, and append at most one `Difference`.  Option objects may omit
either entry, in which case the per-function destructuring defaults
apply. -/


/-- `Math.abs` on the exact rationals. -/
def jsAbs (q : ℚ) : ℚ := if q < 0 then -q else q

/-- `Math.max` on the exact rationals. -/
def jsMax (a b : ℚ) : ℚ := if a < b then b else a

/-- The `options` argument: both entries optional, per-function defaults. -/
structure CompareOptions where
  tolerance : Option ℚ := none
  severity : Option String := none
deriving DecidableEq

/-- One entry of `report.differences`.  The structural portfolio/section
entries carry `issue`/`…_exists` fields instead of values; the per-field
entries carry values, `issue_type` and `notes`; numeric discrepancies add
the difference columns.  Absent JavaScript fields are `none`. -/
structure Difference where
  field : String
  severity : String
  issue : Option String := none
  standard_exists : Option Bool := none
  validated_exists : Option Bool := none
  standard_value : Option (Option Json) := none
  validated_value : Option (Option Json) := none
  issue_type : Option String := none
  notes : Option String := none
  absolute_difference : Option ℚ := none
  percent_difference : Option ℚ := none
deriving DecidableEq

/-- `report.statistics`. -/
structure CompareStats where
  fields_compared : ℕ := 0
  fields_different : ℕ := 0
  fields_identical : ℕ := 0
deriving DecidableEq

/-- `report.confidence_metrics` (only the entry the recommendation reads). -/
structure ConfidenceMetrics where
  validated_confidence : Option ℚ := none
deriving DecidableEq

/-- The comparison report threaded through the comparator. -/
structure CompareReport where
  differences : List Difference := []
  statistics : CompareStats := {}
  confidence_metrics : ConfidenceMetrics := {}
deriving DecidableEq

/-- Outcome of `categorizeIssue`. -/
structure IssueCategory where
  type : String
  isFabrication : Bool
  notes : String
deriving DecidableEq

/-- `categorizeIssue(standardValue, validatedValue)`: fabrication and
missing-data detection by strict `null` comparison, then the
substring-containment heuristic on strings, then the generic change. -/
def categorizeIssue (standardValue validatedValue : Option Json) : IssueCategory :=
  if standardValue ≠ some Json.null ∧ validatedValue = some Json.null then
    { type := "removed_fabrication", isFabrication := true,
      notes := "Standard extraction may have fabricated this value (validated set to null)" }
  else if standardValue = some Json.null ∧ validatedValue ≠ some Json.null then
    { type := "added_missing_data", isFabrication := false,
      notes := "Validated extraction found data that standard extraction missed" }
  else
    match standardValue, validatedValue with
    | some (.str a), some (.str b) =>
        if strContains a b || strContains b a then
          { type := "string_modification", isFabrication := false,
            notes := "One value is a subset of the other (possible cleaning/normalization)" }
        else
          { type := "value_change", isFabrication := false,
            notes := "Value changed between extractions" }
    | _, _ =>
        { type := "value_change", isFabrication := false,
          notes := "Value changed between extractions" }

/-- `compareField(fieldPath, standardValue, validatedValue, report, options)`:
canonical-serialization equality first, then categorization. -/
def compareField (fieldPath : String) (standardValue validatedValue : Option Json)
    (report : CompareReport) (options : CompareOptions := {}) : CompareReport :=
  let severity := options.severity.getD "low"
  let report := { report with statistics :=
    { report.statistics with fields_compared := report.statistics.fields_compared + 1 } }
  if stringifyOpt standardValue = stringifyOpt validatedValue then
    { report with statistics :=
      { report.statistics with fields_identical := report.statistics.fields_identical + 1 } }
  else
    let issue := categorizeIssue standardValue validatedValue
    { report with
      statistics :=
        { report.statistics with fields_different := report.statistics.fields_different + 1 },
      differences := report.differences ++
        [{ field := fieldPath,
           severity := if issue.isFabrication then "critical" else severity,
           standard_value := some standardValue,
           validated_value := some validatedValue,
           issue_type := some issue.type,
           notes := some issue.notes }] }

/-- `compareNumericField(fieldPath, standardValue, validatedValue, report,
options)`: strict-`null` handling, `Number` coercion with a `type_mismatch`
on `NaN`, then tolerance comparison. -/
def compareNumericField (fieldPath : String) (standardValue validatedValue : Option Json)
    (report : CompareReport) (options : CompareOptions := {}) : CompareReport :=
  let tolerance := options.tolerance.getD 0
  let severity := options.severity.getD "medium"
  let report := { report with statistics :=
    { report.statistics with fields_compared := report.statistics.fields_compared + 1 } }
  if standardValue = some Json.null ∧ validatedValue = some Json.null then
    { report with statistics :=
      { report.statistics with fields_identical := report.statistics.fields_identical + 1 } }
  else if standardValue = some Json.null ∨ validatedValue = some Json.null then
    let issue := categorizeIssue standardValue validatedValue
    { report with
      statistics :=
        { report.statistics with fields_different := report.statistics.fields_different + 1 },
      differences := report.differences ++
        [{ field := fieldPath,
           severity := if issue.isFabrication then "critical" else severity,
           standard_value := some standardValue,
           validated_value := some validatedValue,
           issue_type := some issue.type,
           notes := some issue.notes }] }
  else
    match toNumberOpt standardValue, toNumberOpt validatedValue with
    | some std, some val =>
        let diff := jsAbs (std - val)
        let percentDiff := if std ≠ 0 then diff / std * 100 else 0
        if diff ≤ tolerance then
          { report with statistics :=
            { report.statistics with fields_identical := report.statistics.fields_identical + 1 } }
        else
          { report with
            statistics :=
              { report.statistics with fields_different := report.statistics.fields_different + 1 },
            differences := report.differences ++
              [{ field := fieldPath,
                 severity := severity,
                 standard_value := some standardValue,
                 validated_value := some validatedValue,
                 absolute_difference := some diff,
                 percent_difference := some percentDiff,
                 issue_type := some "numeric_discrepancy",
                 notes := some (if diff > 1000 then "Large discrepancy detected"
                                else "Small discrepancy") }] }
    | _, _ =>
        { report with
          statistics :=
            { report.statistics with fields_different := report.statistics.fields_different + 1 },
          differences := report.differences ++
            [{ field := fieldPath,
               severity := "medium",
               standard_value := some standardValue,
               validated_value := some validatedValue,
               issue_type := some "type_mismatch",
               notes := some "One or both values are not valid numbers" }] }

/-- Property read on a possibly-`undefined` base (the guarded reads
`standard[field]` after a truthiness check). -/
def optGet (o : Option Json) (k : String) : Option Json :=
  match o with
  | some j => Json.jsonGet j k
  | none => none

/-- Order-preserving de-duplication (`new Set([...])` keeps the first
insertion of each element). -/
def dedupAux (seen : List String) : List String → List String
  | [] => []
  | k :: rest => if seen.contains k then dedupAux seen rest else k :: dedupAux (k :: seen) rest

/-- `new Set([...Object.keys(a), ...Object.keys(b)])` as an ordered list. -/
def unionKeys (a b : Json) : List String :=
  dedupAux [] (Json.jsonKeys a ++ Json.jsonKeys b)

/-- `compareSection(sectionName, standard, validated, report, fields)`. -/
def compareSection (sectionName : String) (standard validated : Option Json)
    (report : CompareReport) (fields : List String) : CompareReport :=
  if ¬ Json.truthyOpt standard ∧ ¬ Json.truthyOpt validated then report
  else if ¬ Json.truthyOpt standard ∨ ¬ Json.truthyOpt validated then
    { report with differences := report.differences ++
        [{ field := sectionName, severity := "high",
           issue := some "Section missing in one extraction",
           standard_exists := some (Json.truthyOpt standard),
           validated_exists := some (Json.truthyOpt validated) }] }
  else
    fields.foldl
      (fun rep f =>
        compareField (sectionName ++ "." ++ f) (optGet standard f) (optGet validated f) rep)
      report

/-- The breakdown-map walk of `compareSingleProperty` (the source inlines
this `forEach` once for the area map and once for the income map): iterate
the key-set union of both maps, numeric-comparing each key's two reads. -/
def compareBreakdownWith (basePath : String) (standardBreakdown validatedBreakdown : Json)
    (options : CompareOptions) (report : CompareReport) : CompareReport :=
  (unionKeys standardBreakdown validatedBreakdown).foldl
    (fun rep t =>
      compareNumericField (basePath ++ "." ++ t)
        (Json.jsonGet standardBreakdown t) (Json.jsonGet validatedBreakdown t) rep options)
    report

/-- `compareSingleProperty(standard, validated, report)`: the fixed
section/field manifest of the composite shape. -/
def compareSingleProperty (standard validated : Json) (report : CompareReport) : CompareReport :=
  let report := compareSection "property_identity"
    (Json.jsonGet standard "property_identity") (Json.jsonGet validated "property_identity")
    report ["name_id", "city", "postal_code", "streets"]
  let report :=
    match Json.jsonGet standard "property_metrics", Json.jsonGet validated "property_metrics" with
    | some spm, some vpm =>
        if spm.truthy && vpm.truthy then
          let report := compareNumericField "property_metrics.total_usable_area_sqm"
            (Json.jsonGet spm "total_usable_area_sqm") (Json.jsonGet vpm "total_usable_area_sqm")
            report { tolerance := some (1/100) }
          let report := compareNumericField "property_metrics.land_area_sqm"
            (Json.jsonGet spm "land_area_sqm") (Json.jsonGet vpm "land_area_sqm")
            report { tolerance := some (1/100) }
          match Json.jsonGet spm "breakdown_by_use", Json.jsonGet vpm "breakdown_by_use" with
          | some sb, some vb =>
              if sb.truthy && vb.truthy then
                compareBreakdownWith "property_metrics.breakdown_by_use" sb vb
                  { tolerance := some (1/100) } report
              else report
          | _, _ => report
        else report
    | _, _ => report
  let report :=
    match Json.jsonGet standard "financial", Json.jsonGet validated "financial" with
    | some sf, some vf =>
        if sf.truthy && vf.truthy then
          let report := compareNumericField "financial.total_rental_income_annual_eur"
            (Json.jsonGet sf "total_rental_income_annual_eur")
            (Json.jsonGet vf "total_rental_income_annual_eur")
            report { tolerance := some (1/100), severity := some "high" }
          match Json.jsonGet sf "breakdown_by_use", Json.jsonGet vf "breakdown_by_use" with
          | some sb, some vb =>
              if sb.truthy && vb.truthy then
                compareBreakdownWith "financial.breakdown_by_use" sb vb
                  { tolerance := some (1/100), severity := some "high" } report
              else report
          | _, _ => report
        else report
    | _, _ => report
  let report :=
    match Json.jsonGet standard "project_details", Json.jsonGet validated "project_details" with
    | some sp, some vp =>
        if sp.truthy && vp.truthy then
          let report := compareNumericField "project_details.original_year_built"
            (Json.jsonGet sp "original_year_built") (Json.jsonGet vp "original_year_built")
            report { tolerance := some 0, severity := some "medium" }
          compareField "project_details.project_type"
            (Json.jsonGet sp "project_type") (Json.jsonGet vp "project_type")
            report { severity := some "medium" }
        else report
    | _, _ => report
  match Json.jsonGet standard "unit_counts", Json.jsonGet validated "unit_counts" with
  | some su, some vu =>
      if su.truthy && vu.truthy then
        compareNumericField "unit_counts.parking_spaces"
          (Json.jsonGet su "parking_spaces") (Json.jsonGet vu "parking_spaces")
          report { tolerance := some 0, severity := some "medium" }
      else report
  | _, _ => report

/-- `getRecommendation(comparisonReport)` of the comparator
(`src/utils/extractionCompare.js`): the comparison-report variant of the
recommendation table.  Note the third rule's truthiness guard on the
confidence value. -/
def getRecommendation (comparisonReport : CompareReport) : String :=
  let fabrications :=
    (comparisonReport.differences.filter fun d => d.issue_type = some "removed_fabrication").length
  let criticalIssues :=
    (comparisonReport.differences.filter fun d => d.severity = "critical").length
  if fabrications > 5 ∨ criticalIssues > 3 then
    "STRONGLY RECOMMENDED: Use validated extraction - standard extraction has significant accuracy issues"
  else if fabrications > 2 ∨ criticalIssues > 0 then
    "RECOMMENDED: Use validated extraction for improved accuracy"
  else if (match comparisonReport.confidence_metrics.validated_confidence with
           | some c => decide (c ≠ 0) && decide (c < 80)
           | none => false) then
    "CAUTION: Both extractions may have issues - manual review recommended"
  else if comparisonReport.differences.length = 0 then
    "OPTIONAL: Both extractions produced identical results"
  else
    "CONSIDER: Validated extraction provides incremental improvements"

/-- First-matching-rule evaluation of a decision table. -/
def firstMatch : List (Bool × String) → String → String
  | [], dflt => dflt
  | (c, m) :: rest, dflt => if c then m else firstMatch rest dflt

/-- The recommendation table exactly as claim C9 states it (transcribed
from the spec's words, *not* from the source): the third rule fires
whenever the reported confidence value is below 80. -/
def claimedRecommendation (r : CompareReport) : String :=
  let fabricated := (r.differences.filter fun d => d.issue_type = some "removed_fabrication").length
  let critical := (r.differences.filter fun d => d.severity = "critical").length
  firstMatch
    [ (fabricated > 5 || critical > 3,
       "STRONGLY RECOMMENDED: Use validated extraction - standard extraction has significant accuracy issues"),
      (fabricated > 2 || critical > 0,
       "RECOMMENDED: Use validated extraction for improved accuracy"),
      ((match r.confidence_metrics.validated_confidence with
        | some c => decide (c < 80)
        | none => false),
       "CAUTION: Both extractions may have issues - manual review recommended"),
      (r.differences.length == 0,
       "OPTIONAL: Both extractions produced identical results") ]
    "CONSIDER: Validated extraction provides incremental improvements"

/-- The recommendation table of claim C9 amended by the code's behaviour:
the confidence rule additionally requires the confidence value to be
truthy (present and nonzero), which is the only divergence from the
claimed table. -/
def amendedRecommendation (r : CompareReport) : String :=
  let fabricated := (r.differences.filter fun d => d.issue_type = some "removed_fabrication").length
  let critical := (r.differences.filter fun d => d.severity = "critical").length
  firstMatch
    [ (fabricated > 5 || critical > 3,
       "STRONGLY RECOMMENDED: Use validated extraction - standard extraction has significant accuracy issues"),
      (fabricated > 2 || critical > 0,
       "RECOMMENDED: Use validated extraction for improved accuracy"),
      ((match r.confidence_metrics.validated_confidence with
        | some c => decide (c ≠ 0) && decide (c < 80)
        | none => false),
       "CAUTION: Both extractions may have issues - manual review recommended"),
      (r.differences.length == 0,
       "OPTIONAL: Both extractions produced identical results") ]
    "CONSIDER: Validated extraction provides incremental improvements"

/-! ## The correction applicator (`src/routes/cleanExtraction.js`)

`applyFieldCorrection(obj, fieldPath, value)` walks the dot-separated path
with a mutable cursor, materialising `{}` at falsy intermediate slots, and
assigns at the leaf.  In (non-strict) JavaScript that walk is partial:

* assigning a property of a primitive is silently ignored;
* descending *two or more* segments past a truthy primitive reads a
  property of `undefined` and throws a `TypeError` (modelled as `none`);
* assigning a property of `null` throws.

A path segment landing on an *array* is modelled as a failure: the
source's actual behaviour there (JavaScript index/expando assignment on
array objects) falls outside the JSON value domain and is exactly the
case the repository documents as unsupported. -/

/-- The loop + final assignment of `applyFieldCorrection`, with the cursor
at `current`, about to process segment `k` with `rest` still to come. -/
def setPathGo (current : Json) (k : String) (rest : List String) (value : Json) : Option Json :=
  match rest with
  | [] =>
      match current with
      | .obj l => some (.obj (Json.objSet l k value))
      | .null => none
      | .arr _ => none
      | other => some other
  | k2 :: rest2 =>
      match current with
      | .obj l =>
          let child :=
            match Json.objGet l k with
            | some c => if c.truthy then c else Json.obj []
            | none => Json.obj []
          match setPathGo child k2 rest2 value with
          | some newChild => some (.obj (Json.objSet l k newChild))
          | none => none
      | .null => none
      | .arr _ => none
      | _ => none

/-- `fieldPath.split('.')`, structurally: accumulate characters up to each
dot.  Always returns at least one segment, like the JavaScript split. -/
def splitDotsAux : List Char → List Char → List String
  | [], acc => [⟨acc.reverse⟩]
  | c :: rest, acc =>
      if c = '.' then (⟨acc.reverse⟩ : String) :: splitDotsAux rest []
      else splitDotsAux rest (c :: acc)

/-- `fieldPath.split('.')`. -/
def splitDots (s : String) : List String :=
  splitDotsAux s.data []

/-- `applyFieldCorrection(obj, fieldPath, value)`.  `splitDots` never
returns an empty list, so the first branch is unreachable. -/
def applyFieldCorrection (obj : Json) (fieldPath : String) (value : Json) : Option Json :=
  match splitDots fieldPath with
  | [] => none
  | k :: rest => setPathGo obj k rest value

mutual

/-- `JSON.parse(JSON.stringify(data))`: a deep structural copy — on the
JSON value domain the round-trip reproduces the value node by node. -/
def deepClone : Json → Json
  | .null => .null
  | .bool b => .bool b
  | .num q => .num q
  | .str s => .str s
  | .arr xs => .arr (deepCloneArr xs)
  | .obj fs => .obj (deepCloneObj fs)

/-- Deep copy of an array's elements. -/
def deepCloneArr : List Json → List Json
  | [] => []
  | x :: xs => deepClone x :: deepCloneArr xs

/-- Deep copy of an object's members. -/
def deepCloneObj : List (String × Json) → List (String × Json)
  | [] => []
  | (k, v) :: fs => (k, deepClone v) :: deepCloneObj fs

end

mutual

theorem deepClone_eq : (v : Json) → deepClone v = v
  | .null => rfl
  | .bool _ => rfl
  | .num _ => rfl
  | .str _ => rfl
  | .arr xs => by rw [deepClone, deepCloneArr_eq xs]
  | .obj fs => by rw [deepClone, deepCloneObj_eq fs]

theorem deepCloneArr_eq : (xs : List Json) → deepCloneArr xs = xs
  | [] => rfl
  | x :: xs => by rw [deepCloneArr, deepClone_eq x, deepCloneArr_eq xs]

theorem deepCloneObj_eq : (fs : List (String × Json)) → deepCloneObj fs = fs
  | [] => rfl
  | (k, v) :: fs => by rw [deepCloneObj, deepClone_eq v, deepCloneObj_eq fs]

end

/-- One entry of `validation.self_verification.field_verifications`.
`correct_value = none` models an absent (`undefined`) entry; an explicit
JSON `null` is `some Json.null`. -/
structure FieldVerification where
  field_path : String
  status : String
  extracted_value : Option Json := none
  correct_value : Option Json := none
deriving DecidableEq

/-- `validation.self_verification`. -/
structure SelfVerification where
  field_verifications : Option (List FieldVerification) := none
  critical_issues : Option (List String) := none
deriving DecidableEq

/-- The validation report consumed by the applicator.  The
`calculation_validation` entry is not modelled: the source block that
reads it (`cleanExtraction.js` lines 80–92) only writes log lines and
never touches `corrected`. -/
structure ValidationReport where
  self_verification : Option SelfVerification := none
deriving DecidableEq

/-- The body of the `verifications.forEach` loop: the three independent
status tests (mutually exclusive on any one finding since `status` is a
single string). -/
def applyVerification (corrected : Json) (verification : FieldVerification) : Option Json :=
  (if verification.status = "INCORRECT" then
      match verification.correct_value with
      | some v => applyFieldCorrection corrected verification.field_path v
      | none => some corrected
    else some corrected).bind fun r1 =>
  (if verification.status = "FABRICATED" then
      applyFieldCorrection r1 verification.field_path Json.null
    else some r1).bind fun r2 =>
  (if verification.status = "MISSING" then
      match verification.correct_value with
      | some v => applyFieldCorrection r2 verification.field_path v
      | none => some r2
    else some r2)

/-- `rec[k1][k2] = v` under a truthiness guard on `rec[k1]`: updates when
both levels are objects; assignment on a truthy primitive is silently
ignored (arrays: unsupported, modelled as ignored). -/
def setSub2 (rec : Json) (k1 k2 : String) (v : Json) : Json :=
  match rec with
  | .obj l =>
      match Json.objGet l k1 with
      | some (.obj l2) => .obj (Json.objSet l k1 (.obj (Json.objSet l2 k2 v)))
      | _ => rec
  | _ => rec

/-- `rec[k1][k2][k3] = v`, likewise ignoring non-object levels. -/
def setSub3 (rec : Json) (k1 k2 k3 : String) (v : Json) : Json :=
  match rec with
  | .obj l =>
      match Json.objGet l k1 with
      | some (.obj l2) =>
          match Json.objGet l2 k2 with
          | some (.obj l3) =>
              .obj (Json.objSet l k1 (.obj (Json.objSet l2 k2 (.obj (Json.objSet l3 k3 v)))))
          | _ => rec
      | _ => rec
  | _ => rec

/-- The body of the `criticalIssues.forEach` loop: the free-text marker
scan.  Reading `.property_metrics` of a `null` record throws (`none`);
the parking branch uses optional chaining after that first read. -/
def applyCriticalIssue (corrected : Json) (issue : String) : Option Json :=
  (if strContains issue "Land area" && strContains issue "not stated" then
      match corrected with
      | .null => none
      | c =>
          if Json.truthyOpt (Json.jsonGet c "property_metrics") then
            some (setSub2 c "property_metrics" "land_area_sqm" Json.null)
          else some c
    else some corrected).bind fun r1 =>
  (if strContains issue "Parking area in sqm" && strContains issue "fabricated" then
    match r1 with
    | .null => none
    | c =>
        let bd :=
          match Json.jsonGet c "property_metrics" with
          | some pm => if pm = Json.null then none else Json.jsonGet pm "breakdown_by_use"
          | none => none
        if Json.truthyOpt bd then
          some (setSub3 c "property_metrics" "breakdown_by_use" "parking_sqm" Json.null)
        else some c
  else some r1)

/-- Everything `applyIntelligentCorrections` does after taking its deep
clone: the guard on `validation`/`validation.self_verification`, the
per-finding loop, and the critical-issue text scan. -/
def applyCorrectionsBody (corrected : Json) (validation : Option ValidationReport) : Option Json :=
  match validation with
  | none => some corrected
  | some v =>
      match v.self_verification with
      | none => some corrected
      | some sv =>
          ((sv.field_verifications.getD []).foldlM applyVerification corrected).bind
            fun c1 => (sv.critical_issues.getD []).foldlM applyCriticalIssue c1

/-- `applyIntelligentCorrections(data, validation)`: deep-clone the record,
then mutate only the clone. -/
def applyIntelligentCorrections (data : Json) (validation : Option ValidationReport) : Option Json :=
  applyCorrectionsBody (deepClone data) validation

/-- Resolve a segment list against a record (reading vocabulary for the
statements: "the record has … at that path"). -/
def getAtPath (j : Json) : List String → Option Json
  | [] => some j
  | k :: rest =>
      match Json.jsonGet j k with
      | some c => getAtPath c rest
      | none => none

/-! ## The calculation auditor (`src/services/validatedClaudeService.js`)

`validateCalculations(data, propertyType)` consumes records in the
extraction schema, whose audited fields are numbers or `null`.  An absent
field and an explicit `null` are merged into `Option` (`none`): for every
guarded read of the function the two take the same branch — the breakdown
and total guards are truthiness tests (both falsy), the occupancy guard is
`!== undefined` but a `null` value then fails both range comparisons, and
the portfolio `year_built !== null` guard lets `undefined` through only
into comparisons that are false for it.  `new Date().getFullYear()` is
impure; the current year is passed as an explicit parameter. -/

/-- One entry of the auditor's `issues` array (portfolio entries add the
index/name columns). -/
structure CalcIssue where
  severity : String
  field : String
  issue : String
  difference : Option ℚ := none
  note : Option String := none
  property_index : Option ℕ := none
  property_name : Option (Option String) := none
deriving DecidableEq

/-- One entry of `checks_performed`. -/
structure CalcCheck where
  type : String
  breakdown_sum : ℚ
  stated_total : ℚ
  difference : ℚ
  within_tolerance : Bool
deriving DecidableEq

/-- The auditor's `summary`. -/
structure CalcSummary where
  total_checks : ℕ
  high_severity_issues : ℕ
  medium_severity_issues : ℕ
deriving DecidableEq

/-- The auditor's result. -/
structure ValidationResult where
  is_valid : Bool
  checks_performed : List CalcCheck
  issues : List CalcIssue
  summary : CalcSummary
deriving DecidableEq

/-- `property_metrics` as the auditor reads it. -/
structure PropertyMetricsData where
  breakdown_by_use : Option (List (String × Option ℚ)) := none
  total_usable_area_sqm : Option ℚ := none
deriving DecidableEq

/-- `financial` as the auditor reads it. -/
structure FinancialData where
  breakdown_by_use : Option (List (String × Option ℚ)) := none
  total_rental_income_annual_eur : Option ℚ := none
deriving DecidableEq

/-- `project_details` as the auditor reads it. -/
structure ProjectDetailsData where
  original_year_built : Option ℚ := none
  completion_year : Option ℚ := none
deriving DecidableEq

/-- `usage_details` as the auditor reads it. -/
structure UsageDetailsData where
  overall_occupancy_percent : Option ℚ := none
deriving DecidableEq

/-- A composite (`SINGLE`) record, restricted to the audited sections. -/
structure SingleData where
  property_metrics : Option PropertyMetricsData := none
  financial : Option FinancialData := none
  project_details : Option ProjectDetailsData := none
  usage_details : Option UsageDetailsData := none
deriving DecidableEq

/-- One portfolio entry, restricted to the audited fields. -/
structure PortfolioProperty where
  name_id : Option String := none
  occupancy_rate_percent : Option ℚ := none
  year_built : Option ℚ := none
deriving DecidableEq

/-- The auditor's `data` argument: one of the two record shapes. -/
inductive CalcData where
  | single (d : SingleData)
  | portfolio (entries : List PortfolioProperty)
deriving DecidableEq

/-- `(val || 0)`: a falsy breakdown entry (absent, `null`, or `0`)
contributes zero. -/
def jsOrZero : Option ℚ → ℚ
  | none => 0
  | some q => if q = 0 then 0 else q

/-- `Object.values(breakdown).reduce((acc, val) => acc + (val || 0), 0)`.
The source spells this reduce out twice, once in the area branch and once
in the income branch, with identical bodies. -/
def sumBreakdown (bd : List (String × Option ℚ)) : ℚ :=
  bd.foldl (fun acc e => acc + jsOrZero e.2) 0

/-- The area breakdown-sum check: guard, check entry, and conditional
high-severity issue (tolerance `max(10, total * 0.02)`). -/
def areaAudit (d : SingleData) : List CalcCheck × List CalcIssue :=
  match d.property_metrics with
  | some pm =>
      match pm.breakdown_by_use, pm.total_usable_area_sqm with
      | some breakdown, some total =>
          if total ≠ 0 then
            let sum := sumBreakdown breakdown
            let tolerance := jsMax 10 (total * (2/100))
            ([{ type := "area_breakdown_sum", breakdown_sum := sum, stated_total := total,
                difference := jsAbs (sum - total),
                within_tolerance := decide (jsAbs (sum - total) ≤ tolerance) }],
             if jsAbs (sum - total) > tolerance then
               [{ severity := "high", field := "property_metrics.total_usable_area_sqm",
                  issue := "Total area (" ++ toString total ++
                    ") doesn't match sum of breakdown (" ++ toString sum ++ ")",
                  difference := some (sum - total) }]
             else [])
          else ([], [])
      | _, _ => ([], [])
  | none => ([], [])

/-- The income breakdown-sum check (tolerance `max(1000, total * 0.02)`). -/
def incomeAudit (d : SingleData) : List CalcCheck × List CalcIssue :=
  match d.financial with
  | some f =>
      match f.breakdown_by_use, f.total_rental_income_annual_eur with
      | some breakdown, some total =>
          if total ≠ 0 then
            let sum := sumBreakdown breakdown
            let tolerance := jsMax 1000 (total * (2/100))
            ([{ type := "income_breakdown_sum", breakdown_sum := sum, stated_total := total,
                difference := jsAbs (sum - total),
                within_tolerance := decide (jsAbs (sum - total) ≤ tolerance) }],
             if jsAbs (sum - total) > tolerance then
               [{ severity := "high", field := "financial.total_rental_income_annual_eur",
                  issue := "Total income (" ++ toString total ++
                    ") doesn't match sum of breakdown (" ++ toString sum ++ ")",
                  difference := some (sum - total) }]
             else [])
          else ([], [])
      | _, _ => ([], [])
  | none => ([], [])

/-- The year-logic checks.  Both issues sit inside one guard requiring
*both* `original_year_built` and `completion_year` to be truthy. -/
def yearAudit (d : SingleData) (currentYear : ℤ) : List CalcIssue :=
  match d.project_details with
  | some pd =>
      match pd.original_year_built, pd.completion_year with
      | some built, some completed =>
          if built ≠ 0 ∧ completed ≠ 0 then
            (if completed < built then
               [{ severity := "high", field := "project_details",
                  issue := "Completion year (" ++ toString completed ++
                    ") is before construction year (" ++ toString built ++ ")",
                  note := some "This is logically impossible" }]
             else []) ++
            (if built < 1800 ∨ built > (currentYear : ℚ) + 10 then
               [{ severity := "medium", field := "project_details.original_year_built",
                  issue := "Year built (" ++ toString built ++
                    ") is outside reasonable range (1800-" ++ toString (currentYear + 10) ++ ")" }]
             else [])
          else []
      | _, _ => []
  | none => []

/-- The occupancy bound check. -/
def occupancyAudit (d : SingleData) : List CalcIssue :=
  match d.usage_details with
  | some ud =>
      match ud.overall_occupancy_percent with
      | some occupancy =>
          if occupancy < 0 ∨ occupancy > 100 then
            [{ severity := "high", field := "usage_details.overall_occupancy_percent",
               issue := "Occupancy rate (" ++ toString occupancy ++
                 "%) is outside valid range (0-100%)" }]
          else []
      | none => []
  | none => []

/-- Per-entry checks of the portfolio branch. -/
def portfolioEntryIssues (idx : ℕ) (p : PortfolioProperty) (currentYear : ℤ) : List CalcIssue :=
  (match p.occupancy_rate_percent with
   | some occ =>
       if occ < 0 ∨ occ > 100 then
         [{ severity := "high", field := "occupancy_rate_percent",
            issue := "Occupancy (" ++ toString occ ++ "%) outside valid range",
            property_index := some idx, property_name := some p.name_id }]
       else []
   | none => []) ++
  (match p.year_built with
   | some yb =>
       if yb < 1800 ∨ yb > (currentYear : ℚ) + 10 then
         [{ severity := "medium", field := "year_built",
            issue := "Year (" ++ toString yb ++ ") outside reasonable range",
            property_index := some idx, property_name := some p.name_id }]
       else []
   | none => [])

/-- `validateCalculations(data, propertyType)`.  A portfolio array handed
to the `SINGLE` branch yields `undefined` for every section read, so every
guard fails; a single record in the portfolio branch fails the
`Array.isArray` test, so the loop is skipped. -/
def validateCalculations (data : CalcData) (propertyType : String) (currentYear : ℤ) :
    ValidationResult :=
  let pair :=
    if propertyType = "SINGLE" then
      match data with
      | .single d =>
          let area := areaAudit d
          let income := incomeAudit d
          (area.1 ++ income.1,
           area.2 ++ income.2 ++ yearAudit d currentYear ++ occupancyAudit d)
      | .portfolio _ => ([], [])
    else
      match data with
      | .portfolio entries =>
          ([], entries.enum.flatMap fun e => portfolioEntryIssues e.1 e.2 currentYear)
      | .single _ => ([], [])
  { is_valid := (pair.2.filter fun i => i.severity = "high").length = 0,
    checks_performed := pair.1,
    issues := pair.2,
    summary :=
      { total_checks := pair.1.length,
        high_severity_issues := (pair.2.filter fun i => i.severity = "high").length,
        medium_severity_issues := (pair.2.filter fun i => i.severity = "medium").length } }

/-! ## Lemmas about object updates and the path walk -/

theorem objGet_objSet (l : List (String × Json)) (k : String) (v : Json) :
    Json.objGet (Json.objSet l k v) k = some v := by
  induction l with
  | nil => simp [Json.objSet, Json.objGet]
  | cons e rest ih =>
    obtain ⟨k1, w⟩ := e
    by_cases hk : k1 = k
    · simp [Json.objSet, Json.objGet, hk]
    · simp [Json.objSet, Json.objGet, hk, ih]

theorem objSet_objSet (l : List (String × Json)) (k : String) (v w : Json) :
    Json.objSet (Json.objSet l k v) k w = Json.objSet l k w := by
  induction l with
  | nil => simp [Json.objSet]
  | cons e rest ih =>
    obtain ⟨k1, u⟩ := e
    by_cases hk : k1 = k
    · simp [Json.objSet, hk]
    · simp [Json.objSet, hk, ih]

theorem setPathGo_some_obj (rest : List String) (l : List (String × Json)) (k : String)
    (v r : Json) (h : setPathGo (Json.obj l) k rest v = some r) :
    ∃ l2, r = Json.obj l2 := by
  cases rest with
  | nil =>
    simp only [setPathGo, Option.some_inj] at h
    exact ⟨Json.objSet l k v, h.symm⟩
  | cons k2 rest2 =>
    simp only [setPathGo] at h
    rcases hrec : setPathGo _ k2 rest2 v with _ | nc
    · rw [hrec] at h; exact absurd h (by simp)
    · rw [hrec] at h
      simp only [Option.some_inj] at h
      exact ⟨Json.objSet l k nc, h.symm⟩

theorem setPathGo_truthy (rest : List String) (cur : Json) (k : String) (v nc : Json)
    (h : setPathGo cur k rest v = some nc) (hcur : cur.truthy = true) : nc.truthy = true := by
  cases cur with
  | null => simp [Json.truthy] at hcur
  | arr xs => cases rest <;> simp [setPathGo] at h
  | obj l =>
    obtain ⟨l2, hl2⟩ := setPathGo_some_obj rest l k v nc h
    rw [hl2]; rfl
  | bool b =>
    cases rest with
    | nil => simp only [setPathGo, Option.some_inj] at h; rw [← h]; exact hcur
    | cons _ _ => simp [setPathGo] at h
  | num q =>
    cases rest with
    | nil => simp only [setPathGo, Option.some_inj] at h; rw [← h]; exact hcur
    | cons _ _ => simp [setPathGo] at h
  | str s =>
    cases rest with
    | nil => simp only [setPathGo, Option.some_inj] at h; rw [← h]; exact hcur
    | cons _ _ => simp [setPathGo] at h

theorem setPathGo_idem (rest : List String) :
    ∀ (cur : Json) (k : String) (v r : Json),
      setPathGo cur k rest v = some r → setPathGo r k rest v = some r := by
  induction rest with
  | nil =>
    intro cur k v r h
    cases cur with
    | obj l =>
      simp only [setPathGo, Option.some_inj] at h
      rw [← h]
      simp [setPathGo, objSet_objSet]
    | null => simp [setPathGo] at h
    | arr xs => simp [setPathGo] at h
    | bool b => simp only [setPathGo, Option.some_inj] at h; rw [← h]; rfl
    | num q => simp only [setPathGo, Option.some_inj] at h; rw [← h]; rfl
    | str s => simp only [setPathGo, Option.some_inj] at h; rw [← h]; rfl
  | cons k2 rest2 ih =>
    intro cur k v r h
    cases cur with
    | obj l =>
      simp only [setPathGo] at h
      rcases hrec : setPathGo (match Json.objGet l k with
        | some c => if c.truthy then c else Json.obj []
        | none => Json.obj []) k2 rest2 v with _ | nc
      · rw [hrec] at h; exact absurd h (by simp)
      · rw [hrec] at h
        simp only [Option.some_inj] at h
        have hchild_truthy : (match Json.objGet l k with
            | some c => if c.truthy then c else Json.obj []
            | none => Json.obj []).truthy = true := by
          rcases Json.objGet l k with _ | c
          · rfl
          · dsimp only
            by_cases hc : c.truthy = true
            · rw [if_pos hc]; exact hc
            · rw [if_neg hc]; rfl
        have hnc : nc.truthy = true := setPathGo_truthy rest2 _ k2 v nc hrec hchild_truthy
        rw [← h]
        simp only [setPathGo, objGet_objSet, hnc, if_true]
        have hid := ih _ k2 v nc hrec
        rw [hid]
        simp [objSet_objSet]
    | null => simp [setPathGo] at h
    | arr xs => simp [setPathGo] at h
    | bool b => simp [setPathGo] at h
    | num q => simp [setPathGo] at h
    | str s => simp [setPathGo] at h

theorem applyFieldCorrection_idem (rec : Json) (path : String) (v r1 : Json)
    (h : applyFieldCorrection rec path v = some r1) :
    applyFieldCorrection r1 path v = some r1 := by
  unfold applyFieldCorrection at h ⊢
  rcases hs : splitDots path with _ | ⟨k, rest⟩
  · rw [hs] at h; exact absurd h (by simp)
  · rw [hs] at h; exact setPathGo_idem rest rec k v r1 h

theorem applyVerification_idem (rec : Json) (f : FieldVerification) (r1 : Json)
    (h : applyVerification rec f = some r1) : applyVerification r1 f = some r1 := by
  unfold applyVerification at h ⊢
  by_cases hI : f.status = "INCORRECT"
  · have hF : ¬ f.status = "FABRICATED" := by rw [hI]; decide
    have hM : ¬ f.status = "MISSING" := by rw [hI]; decide
    simp only [if_pos hI, if_neg hF, if_neg hM] at h ⊢
    rcases hcv : f.correct_value with _ | v <;> simp only [hcv] at h ⊢
    · simp only [Option.some_bind, Option.some_inj] at h ⊢
    · rcases hafc : applyFieldCorrection rec f.field_path v with _ | m
      · rw [hafc] at h
        exact absurd h (by simp)
      · rw [hafc] at h
        simp only [Option.some_bind, Option.some_inj] at h
        rw [← h, applyFieldCorrection_idem rec f.field_path v m hafc]
        simp
  · by_cases hF : f.status = "FABRICATED"
    · have hM : ¬ f.status = "MISSING" := by rw [hF]; decide
      simp only [if_neg hI, if_pos hF, if_neg hM, Option.some_bind] at h ⊢
      rcases hafc : applyFieldCorrection rec f.field_path Json.null with _ | m
      · rw [hafc] at h
        exact absurd h (by simp)
      · rw [hafc] at h
        simp only [Option.some_bind, Option.some_inj] at h
        rw [← h, applyFieldCorrection_idem rec f.field_path Json.null m hafc]
        simp
    · by_cases hM : f.status = "MISSING"
      · simp only [if_neg hI, if_neg hF, if_pos hM, Option.some_bind] at h ⊢
        rcases hcv : f.correct_value with _ | v <;> simp only [hcv] at h ⊢
        exact applyFieldCorrection_idem rec f.field_path v r1 h
      · simp only [if_neg hI, if_neg hF, if_neg hM, Option.some_bind, Option.some_inj] at h ⊢

/-- A validation report holding exactly one field verification and no
critical issues. -/
def singleReport (f : FieldVerification) : ValidationReport :=
  { self_verification := some { field_verifications := some [f], critical_issues := some [] } }

theorem applyCorrections_single (rec : Json) (f : FieldVerification) :
    applyIntelligentCorrections rec (some (singleReport f)) = applyVerification rec f := by
  simp only [applyIntelligentCorrections, applyCorrectionsBody, singleReport, deepClone_eq]
  simp only [Option.getD_some, List.foldlM, bind_pure_comp, Option.pure_def]
  rcases hv : applyVerification rec f with _ | m <;> simp [hv]

/-! ## Counting and filtering lemmas -/

theorem compareNumericField_compared (p : String) (a b : Option Json)
    (r : CompareReport) (opts : CompareOptions) :
    (compareNumericField p a b r opts).statistics.fields_compared =
      r.statistics.fields_compared + 1 := by
  unfold compareNumericField
  dsimp only
  split
  · rfl
  · split
    · rfl
    · rcases toNumberOpt a with _ | x <;> rcases toNumberOpt b with _ | y <;> dsimp only <;>
        first
        | rfl
        | (split <;> rfl)

theorem foldl_numeric_compared (keys : List String) (path : String → String)
    (g1 g2 : String → Option Json) (opts : CompareOptions) :
    ∀ r : CompareReport,
      ((keys.foldl (fun rep t => compareNumericField (path t) (g1 t) (g2 t) rep opts)
          r).statistics.fields_compared) = r.statistics.fields_compared + keys.length := by
  induction keys with
  | nil => intro r; simp
  | cons k rest ih =>
    intro r
    simp only [List.foldl_cons, List.length_cons]
    rw [ih, compareNumericField_compared]
    omega

theorem compareBreakdownWith_compared (basePath : String) (sb vb : Json)
    (opts : CompareOptions) (r : CompareReport) :
    (compareBreakdownWith basePath sb vb opts r).statistics.fields_compared =
      r.statistics.fields_compared + (unionKeys sb vb).length := by
  unfold compareBreakdownWith
  exact foldl_numeric_compared (unionKeys sb vb) _ _ _ opts r

theorem areaAudit_issue_field (d : SingleData) :
    ∀ i ∈ (areaAudit d).2, i.field = "property_metrics.total_usable_area_sqm" := by
  unfold areaAudit
  rcases d.property_metrics with _ | pm
  · simp
  · obtain ⟨bdo, t0⟩ := pm
    rcases bdo with _ | bd <;> rcases t0 with _ | t <;> dsimp only <;>
      intro i hi <;>
      try exact absurd hi (List.not_mem_nil i)
    split at hi
    · dsimp only at hi
      split at hi
      · simp only [List.mem_singleton] at hi
        rw [hi]
      · exact absurd hi (List.not_mem_nil i)
    · exact absurd hi (List.not_mem_nil i)

theorem incomeAudit_issue_field (d : SingleData) :
    ∀ i ∈ (incomeAudit d).2, i.field = "financial.total_rental_income_annual_eur" := by
  unfold incomeAudit
  rcases d.financial with _ | f
  · simp
  · obtain ⟨bdo, t0⟩ := f
    rcases bdo with _ | bd <;> rcases t0 with _ | t <;> dsimp only <;>
      intro i hi <;>
      try exact absurd hi (List.not_mem_nil i)
    split at hi
    · dsimp only at hi
      split at hi
      · simp only [List.mem_singleton] at hi
        rw [hi]
      · exact absurd hi (List.not_mem_nil i)
    · exact absurd hi (List.not_mem_nil i)

theorem yearAudit_issue_field (d : SingleData) (cy : ℤ) :
    ∀ i ∈ yearAudit d cy,
      i.field = "project_details" ∨ i.field = "project_details.original_year_built" := by
  unfold yearAudit
  rcases d.project_details with _ | pd
  · simp
  · obtain ⟨bo, co⟩ := pd
    rcases bo with _ | b <;> rcases co with _ | c <;> dsimp only <;>
      intro i hi <;>
      try exact absurd hi (List.not_mem_nil i)
    split at hi
    · simp only [List.mem_append] at hi
      rcases hi with hi | hi
      · split at hi
        · simp only [List.mem_singleton] at hi
          rw [hi]
          left
          rfl
        · exact absurd hi (List.not_mem_nil i)
      · split at hi
        · simp only [List.mem_singleton] at hi
          rw [hi]
          right
          rfl
        · exact absurd hi (List.not_mem_nil i)
    · exact absurd hi (List.not_mem_nil i)

theorem occupancyAudit_issue_field (d : SingleData) :
    ∀ i ∈ occupancyAudit d, i.field = "usage_details.overall_occupancy_percent" := by
  unfold occupancyAudit
  rcases d.usage_details with _ | ud
  · simp
  · obtain ⟨oo⟩ := ud
    rcases oo with _ | o <;> dsimp only <;>
      intro i hi <;>
      try exact absurd hi (List.not_mem_nil i)
    split at hi
    · simp only [List.mem_singleton] at hi
      rw [hi]
    · exact absurd hi (List.not_mem_nil i)

/-! ## Claim C1 -/

/-- C1: in both the generic (`compareField`) and the numeric
(`compareNumericField`) comparison, a non-null standard value against a
null validated value always yields exactly one appended Difference with
`issue_type = removed_fabrication` and `severity = critical`, whatever
severity (and tolerance) the caller's options request. -/
theorem c1_removed_fabrication_forced_critical
    (p : String) (std : Option Json) (r : CompareReport) (opts : CompareOptions)
    (hstd : std ≠ some Json.null) :
    (compareField p std (some Json.null) r opts).differences =
      r.differences ++
        [{ field := p, severity := "critical",
           standard_value := some std, validated_value := some (some Json.null),
           issue_type := some "removed_fabrication",
           notes := some "Standard extraction may have fabricated this value (validated set to null)" }] ∧
    (compareNumericField p std (some Json.null) r opts).differences =
      r.differences ++
        [{ field := p, severity := "critical",
           standard_value := some std, validated_value := some (some Json.null),
           issue_type := some "removed_fabrication",
           notes := some "Standard extraction may have fabricated this value (validated set to null)" }] := by
  have hser : stringifyOpt std ≠ stringifyOpt (some Json.null) := by
    cases std with
    | none => simp [stringifyOpt]
    | some v =>
      intro hEq
      have hv : stringify v = stringify Json.null := by
        simpa [stringifyOpt] using hEq
      have hvn : v = Json.null := stringify_eq_null v (by rw [hv]; decide)
      exact hstd (by rw [hvn])
  have hcat : categorizeIssue std (some Json.null) =
      { type := "removed_fabrication", isFabrication := true,
        notes := "Standard extraction may have fabricated this value (validated set to null)" } := by
    unfold categorizeIssue
    rw [if_pos ⟨hstd, rfl⟩]
  constructor
  · unfold compareField
    rw [if_neg hser, hcat]
    rfl
  · unfold compareNumericField
    rw [if_neg (by intro hc; exact hstd hc.1), if_pos (Or.inr rfl), hcat]
    rfl

/-- Witness for C1 at a concrete input. -/
theorem c1_witness :
    (some (Json.num 5) ≠ some Json.null) ∧
    (compareField "x" (some (Json.num 5)) (some Json.null) {} {}).differences =
      [{ field := "x", severity := "critical",
         standard_value := some (some (Json.num 5)), validated_value := some (some Json.null),
         issue_type := some "removed_fabrication",
         notes := some "Standard extraction may have fabricated this value (validated set to null)" }] ∧
    (compareNumericField "x" (some (Json.num 5)) (some Json.null) {} {}).differences =
      [{ field := "x", severity := "critical",
         standard_value := some (some (Json.num 5)), validated_value := some (some Json.null),
         issue_type := some "removed_fabrication",
         notes := some "Standard extraction may have fabricated this value (validated set to null)" }] :=
  ⟨by decide,
   (c1_removed_fabrication_forced_critical "x" (some (Json.num 5)) {} {} (by decide)).1,
   (c1_removed_fabrication_forced_critical "x" (some (Json.num 5)) {} {} (by decide)).2⟩

/-! ## Claim C6 -/

/-- C6 (amended): values with the same canonical serialization are counted
identical with no Difference by the generic comparator, for every options
object; the numeric comparator does the same when both values are null, or
when both coerce to numbers whose absolute difference is within the
(resolved) tolerance — but not in general: identically-serializing values
that fail numeric coercion are counted different (see the
counterexample). -/
theorem c6_canonical_equality_identical :
    (∀ (p : String) (a b : Option Json) (r : CompareReport) (opts : CompareOptions),
        stringifyOpt a = stringifyOpt b →
        compareField p a b r opts =
          { r with statistics :=
              { r.statistics with
                fields_compared := r.statistics.fields_compared + 1,
                fields_identical := r.statistics.fields_identical + 1 } }) ∧
    (∀ (p : String) (r : CompareReport) (opts : CompareOptions),
        compareNumericField p (some Json.null) (some Json.null) r opts =
          { r with statistics :=
              { r.statistics with
                fields_compared := r.statistics.fields_compared + 1,
                fields_identical := r.statistics.fields_identical + 1 } }) ∧
    (∀ (p : String) (a b : Option Json) (r : CompareReport) (opts : CompareOptions) (x y : ℚ),
        a ≠ some Json.null → b ≠ some Json.null →
        toNumberOpt a = some x → toNumberOpt b = some y →
        jsAbs (x - y) ≤ opts.tolerance.getD 0 →
        compareNumericField p a b r opts =
          { r with statistics :=
              { r.statistics with
                fields_compared := r.statistics.fields_compared + 1,
                fields_identical := r.statistics.fields_identical + 1 } }) := by
  refine ⟨?_, ?_, ?_⟩
  · intro p a b r opts h
    unfold compareField
    rw [if_pos h]
  · intro p r opts
    unfold compareNumericField
    rw [if_pos ⟨rfl, rfl⟩]
  · intro p a b r opts x y ha hb hx hy htol
    unfold compareNumericField
    rw [if_neg (by intro hc; exact ha hc.1),
        if_neg (by intro hc; rcases hc with hc | hc; exacts [ha hc, hb hc]),
        hx, hy]
    dsimp only
    rw [if_pos htol]

/-- C6 counterexample: the strings `"abc"` and `"abc"` serialize
identically, yet the numeric comparator counts them as different and emits
a `type_mismatch` Difference, refuting the claim for the numeric
comparator. -/
theorem c6_counterexample :
    stringifyOpt (some (Json.str "abc")) = stringifyOpt (some (Json.str "abc")) ∧
    (compareNumericField "p" (some (Json.str "abc")) (some (Json.str "abc")) {} {}).statistics.fields_identical = 0 ∧
    (compareNumericField "p" (some (Json.str "abc")) (some (Json.str "abc")) {} {}).statistics.fields_different = 1 ∧
    (compareNumericField "p" (some (Json.str "abc")) (some (Json.str "abc")) {} {}).differences.map
        (fun d => d.issue_type) = [some "type_mismatch"] :=
  ⟨rfl, by decide, by decide, by decide⟩

/-- Witness for C6 at concrete inputs. -/
theorem c6_witness :
    compareField "x" (some (Json.num 7)) (some (Json.num 7)) {} {} =
      { statistics := { fields_compared := 1, fields_different := 0, fields_identical := 1 } } ∧
    compareNumericField "y" (some (Json.num 3)) (some (Json.num 3)) {} {} =
      { statistics := { fields_compared := 1, fields_different := 0, fields_identical := 1 } } :=
  ⟨c6_canonical_equality_identical.1 "x" (some (Json.num 7)) (some (Json.num 7)) {} {} rfl,
   c6_canonical_equality_identical.2.2 "y" (some (Json.num 3)) (some (Json.num 3)) {} {} 3 3
     (by decide) (by decide) (by decide) (by decide) (by decide)⟩

/-! ## Claim C9 -/

/-- C9 (amended): the comparison-report recommendation is the first
matching rule of the claimed table with one correction — the confidence
rule fires only when the confidence value is truthy (present and nonzero)
in addition to being below 80. -/
theorem c9_recommendation_table (r : CompareReport) :
    getRecommendation r = amendedRecommendation r := by
  unfold getRecommendation amendedRecommendation
  simp only [firstMatch, Bool.or_eq_true, decide_eq_true_eq, beq_iff_eq, gt_iff_lt]

/-- C9 counterexample: a report with zero differences and a reported
confidence of 0 (which is below 80): the claimed table answers the caution
message, the code answers the identical-results message. -/
theorem c9_counterexample :
    claimedRecommendation { confidence_metrics := { validated_confidence := some 0 } } =
      "CAUTION: Both extractions may have issues - manual review recommended" ∧
    getRecommendation { confidence_metrics := { validated_confidence := some 0 } } =
      "OPTIONAL: Both extractions produced identical results" ∧
    getRecommendation { confidence_metrics := { validated_confidence := some 0 } } ≠
      claimedRecommendation { confidence_metrics := { validated_confidence := some 0 } } :=
  ⟨by decide, by decide, by decide⟩

/-! ## Claim C3 -/

/-- C3: the Correction Applicator never mutates its input: its only use of
the caller's record is the deep clone taken on entry, that clone is
structurally equal to the record (so a structural snapshot before the call
equals one after — in this pure embedding the record value itself is
untouched), and the whole computation factors through the clone
(`applyCorrectionsBody`), a structurally independent copy. -/
theorem c3_applicator_never_mutates_input (data : Json) (validation : Option ValidationReport) :
    deepClone data = data ∧
    applyIntelligentCorrections data validation = applyCorrectionsBody data validation := by
  refine ⟨deepClone_eq data, ?_⟩
  unfold applyIntelligentCorrections
  rw [deepClone_eq]

/-! ## Claim C2 -/

/-- The record of C2's counterexample. -/
def c2Record : Json := Json.obj [("a", Json.num 7)]

/-- The report of C2's counterexample: a FABRICATED finding at `a`
followed by a MISSING finding at the same path with a correct value. -/
def c2Report : ValidationReport :=
  { self_verification := some
      { field_verifications := some
          [ { field_path := "a", status := "FABRICATED",
              extracted_value := some (Json.num 7), correct_value := none },
            { field_path := "a", status := "MISSING", correct_value := some (Json.num 5) } ],
        critical_issues := some [] } }

/-- C2 counterexample: the report contains a FABRICATED finding at path
`a`, yet the corrected record does not have null there — the later MISSING
finding refills the path with `5`. -/
theorem c2_counterexample :
    ((c2Report.self_verification.getD {}).field_verifications.getD []).any
        (fun f => f.status == "FABRICATED" && f.field_path == "a") = true ∧
    applyIntelligentCorrections c2Record (some c2Report) = some (Json.obj [("a", Json.num 5)]) ∧
    (applyIntelligentCorrections c2Record (some c2Report)).bind (fun r => getAtPath r ["a"]) =
      some (Json.num 5) :=
  ⟨by decide, by decide, by decide⟩

/-- The record of C2's Scenario C. -/
def c2ScenarioRecord : Json :=
  Json.obj [("property_metrics", Json.obj [("land_area_sqm", Json.num 42277)])]

/-- The report of C2's Scenario C: one FABRICATED finding at the metrics
land-area path with extracted value 42277. -/
def c2ScenarioReport : ValidationReport :=
  { self_verification := some
      { field_verifications := some
          [ { field_path := "property_metrics.land_area_sqm", status := "FABRICATED",
              extracted_value := some (Json.num 42277), correct_value := none } ],
        critical_issues := some [] } }

/-- C2 (amended): when a FABRICATED finding is applied, its step sets its
path to null regardless of the finding's own correct value (the step
equals `applyFieldCorrection … null`, which does not read
`correct_value`); in particular Scenario C holds: a single FABRICATED
finding at `property_metrics.land_area_sqm` with extracted value 42277
yields a corrected record with null at that path.  The universal claim
fails only when a later finding writes the same path again (see the
counterexample). -/
theorem c2_fabricated_step_nulls_path :
    (∀ (rec : Json) (f : FieldVerification), f.status = "FABRICATED" →
        applyVerification rec f = applyFieldCorrection rec f.field_path Json.null) ∧
    (applyIntelligentCorrections c2ScenarioRecord (some c2ScenarioReport)).bind
        (fun res => getAtPath res ["property_metrics", "land_area_sqm"]) = some Json.null := by
  constructor
  · intro rec f hf
    have hI : ¬ f.status = "INCORRECT" := by rw [hf]; decide
    have hM : ¬ f.status = "MISSING" := by rw [hf]; decide
    unfold applyVerification
    simp only [if_neg hI, if_pos hf, if_neg hM, Option.some_bind]
    rcases hafc : applyFieldCorrection rec f.field_path Json.null with _ | m <;> simp
  · decide

/-- Witness for C2 at a concrete input. -/
theorem c2_witness :
    applyVerification (Json.obj [("z", Json.num 3)])
        { field_path := "z", status := "FABRICATED",
          extracted_value := some (Json.num 3), correct_value := some (Json.num 9) } =
      applyFieldCorrection (Json.obj [("z", Json.num 3)]) "z" Json.null :=
  c2_fabricated_step_nulls_path.1 (Json.obj [("z", Json.num 3)])
    { field_path := "z", status := "FABRICATED",
      extracted_value := some (Json.num 3), correct_value := some (Json.num 9) } rfl

/-! ## Claim C4 -/

/-- The record of C4's counterexample. -/
def c4Record : Json := Json.obj []

/-- The report of C4's counterexample: an INCORRECT finding deep under `a`
followed by an INCORRECT finding that sets `a` itself to a (truthy)
primitive. -/
def c4Report : ValidationReport :=
  { self_verification := some
      { field_verifications := some
          [ { field_path := "a.b.c", status := "INCORRECT", correct_value := some (Json.num 1) },
            { field_path := "a", status := "INCORRECT", correct_value := some (Json.num 5) } ],
        critical_issues := some [] } }

/-- C4 counterexample: the first application succeeds, but re-applying the
same findings to its output throws (walking `a.b.c` through the primitive
now stored at `a` dereferences `undefined`), so the double application is
not the single application. -/
theorem c4_counterexample :
    applyIntelligentCorrections c4Record (some c4Report) = some (Json.obj [("a", Json.num 5)]) ∧
    applyIntelligentCorrections (Json.obj [("a", Json.num 5)]) (some c4Report) = none ∧
    (applyIntelligentCorrections c4Record (some c4Report)).bind
        (fun r => applyIntelligentCorrections r (some c4Report)) ≠
      applyIntelligentCorrections c4Record (some c4Report) :=
  ⟨by decide, by decide, by decide⟩

/-- C4 (amended): for a report holding a single finding (and no critical
issues), applying the corrections is idempotent: if the first application
returns a record, applying the same report to that record returns it
unchanged.  With several findings the second application can instead throw
(see the counterexample). -/
theorem c4_single_finding_idempotent (rec : Json) (f : FieldVerification) (r1 : Json)
    (h : applyIntelligentCorrections rec (some (singleReport f)) = some r1) :
    applyIntelligentCorrections r1 (some (singleReport f)) = some r1 := by
  rw [applyCorrections_single] at h ⊢
  exact applyVerification_idem rec f r1 h

/-- Witness for C4 at a concrete input. -/
theorem c4_witness :
    applyIntelligentCorrections (Json.obj [("w", Json.num 7)])
        (some (singleReport
          { field_path := "w", status := "FABRICATED", extracted_value := none,
            correct_value := none })) = some (Json.obj [("w", Json.null)]) ∧
    applyIntelligentCorrections (Json.obj [("w", Json.null)])
        (some (singleReport
          { field_path := "w", status := "FABRICATED", extracted_value := none,
            correct_value := none })) = some (Json.obj [("w", Json.null)]) :=
  ⟨by decide,
   c4_single_finding_idempotent (Json.obj [("w", Json.num 7)])
     { field_path := "w", status := "FABRICATED", extracted_value := none, correct_value := none }
     (Json.obj [("w", Json.null)]) (by decide)⟩

/-! ## Auditor decomposition lemmas -/

theorem validateCalculations_single_issues (d : SingleData) (cy : ℤ) :
    (validateCalculations (.single d) "SINGLE" cy).issues =
      (areaAudit d).2 ++ (incomeAudit d).2 ++ yearAudit d cy ++ occupancyAudit d := by
  unfold validateCalculations
  rw [if_pos rfl]

theorem validateCalculations_single_checks (d : SingleData) (cy : ℤ) :
    (validateCalculations (.single d) "SINGLE" cy).checks_performed =
      (areaAudit d).1 ++ (incomeAudit d).1 := by
  unfold validateCalculations
  rw [if_pos rfl]

theorem areaAudit_check_type (d : SingleData) :
    ∀ c ∈ (areaAudit d).1, c.type = "area_breakdown_sum" := by
  unfold areaAudit
  rcases d.property_metrics with _ | pm
  · simp
  · obtain ⟨bdo, t0⟩ := pm
    rcases bdo with _ | bd <;> rcases t0 with _ | t <;> dsimp only <;>
      intro c hc <;>
      try exact absurd hc (List.not_mem_nil c)
    split at hc
    · dsimp only at hc
      simp only [List.mem_singleton] at hc
      rw [hc]
    · exact absurd hc (List.not_mem_nil c)

theorem incomeAudit_check_type (d : SingleData) :
    ∀ c ∈ (incomeAudit d).1, c.type = "income_breakdown_sum" := by
  unfold incomeAudit
  rcases d.financial with _ | f
  · simp
  · obtain ⟨bdo, t0⟩ := f
    rcases bdo with _ | bd <;> rcases t0 with _ | t <;> dsimp only <;>
      intro c hc <;>
      try exact absurd hc (List.not_mem_nil c)
    split at hc
    · dsimp only at hc
      simp only [List.mem_singleton] at hc
      rw [hc]
    · exact absurd hc (List.not_mem_nil c)

theorem areaAudit_of_guards (d : SingleData) (pm : PropertyMetricsData)
    (bd : List (String × Option ℚ)) (t : ℚ)
    (hpm : d.property_metrics = some pm) (hbd : pm.breakdown_by_use = some bd)
    (ht : pm.total_usable_area_sqm = some t) (ht0 : t ≠ 0) :
    areaAudit d =
      ([{ type := "area_breakdown_sum", breakdown_sum := sumBreakdown bd, stated_total := t,
          difference := jsAbs (sumBreakdown bd - t),
          within_tolerance := decide (jsAbs (sumBreakdown bd - t) ≤ jsMax 10 (t * (2/100))) }],
       if jsAbs (sumBreakdown bd - t) > jsMax 10 (t * (2/100)) then
         [{ severity := "high", field := "property_metrics.total_usable_area_sqm",
            issue := "Total area (" ++ toString t ++ ") doesn't match sum of breakdown (" ++
              toString (sumBreakdown bd) ++ ")",
            difference := some (sumBreakdown bd - t) }]
       else []) := by
  unfold areaAudit
  rw [hpm]
  dsimp only
  rw [hbd, ht]
  dsimp only
  rw [if_pos ht0]

theorem incomeAudit_of_guards (d : SingleData) (f : FinancialData)
    (bd : List (String × Option ℚ)) (t : ℚ)
    (hf : d.financial = some f) (hbd : f.breakdown_by_use = some bd)
    (ht : f.total_rental_income_annual_eur = some t) (ht0 : t ≠ 0) :
    incomeAudit d =
      ([{ type := "income_breakdown_sum", breakdown_sum := sumBreakdown bd, stated_total := t,
          difference := jsAbs (sumBreakdown bd - t),
          within_tolerance := decide (jsAbs (sumBreakdown bd - t) ≤ jsMax 1000 (t * (2/100))) }],
       if jsAbs (sumBreakdown bd - t) > jsMax 1000 (t * (2/100)) then
         [{ severity := "high", field := "financial.total_rental_income_annual_eur",
            issue := "Total income (" ++ toString t ++ ") doesn't match sum of breakdown (" ++
              toString (sumBreakdown bd) ++ ")",
            difference := some (sumBreakdown bd - t) }]
       else []) := by
  unfold incomeAudit
  rw [hf]
  dsimp only
  rw [hbd, ht]
  dsimp only
  rw [if_pos ht0]

theorem yearAudit_of_guards (d : SingleData) (pd : ProjectDetailsData) (b c : ℚ) (cy : ℤ)
    (hpd : d.project_details = some pd) (hb : pd.original_year_built = some b) (hb0 : b ≠ 0)
    (hc : pd.completion_year = some c) (hc0 : c ≠ 0) :
    yearAudit d cy =
      (if c < b then
         [{ severity := "high", field := "project_details",
            issue := "Completion year (" ++ toString c ++ ") is before construction year (" ++
              toString b ++ ")",
            note := some "This is logically impossible" }]
       else []) ++
      (if b < 1800 ∨ b > (cy : ℚ) + 10 then
         [{ severity := "medium", field := "project_details.original_year_built",
            issue := "Year built (" ++ toString b ++ ") is outside reasonable range (1800-" ++
              toString (cy + 10) ++ ")" }]
       else []) := by
  unfold yearAudit
  rw [hpd]
  dsimp only
  rw [hb, hc]
  dsimp only
  rw [if_pos ⟨hb0, hc0⟩]

/-! ## Claim C5 -/

/-- The record of Scenario A. -/
def c5Scenario : SingleData :=
  { property_metrics := some
      { breakdown_by_use := some [("office", some 100), ("retail", some 50)],
        total_usable_area_sqm := some 200 } }

/-- The record of C5's counterexample: a stated total usable area of 0
with a breakdown summing to 50. -/
def c5ZeroTotalRecord : SingleData :=
  { property_metrics := some
      { breakdown_by_use := some [("office", some 50)],
        total_usable_area_sqm := some 0 } }

/-- C5 counterexample: the record states a total usable area of 0 and a
breakdown summing to 50; the claimed tolerance is `max(10, 0 * 0.02) = 10`
and the absolute difference 50 exceeds it, so the claim demands one
high-severity Issue citing the total's path — but `0` is falsy, the
truthiness guard skips the area check, and the Auditor emits no Issue and
records no check at all. -/
theorem c5_counterexample :
    jsMax 10 ((0 : ℚ) * (2/100)) = 10 ∧
    jsAbs (sumBreakdown [(("office" : String), some (50 : ℚ))] - 0) = 50 ∧
    (50 : ℚ) > 10 ∧
    (validateCalculations (.single c5ZeroTotalRecord) "SINGLE" 2025).issues = [] ∧
    (validateCalculations (.single c5ZeroTotalRecord) "SINGLE" 2025).checks_performed = [] :=
  ⟨by decide, by decide, by decide, by decide, by decide⟩

/-- C5 (amended): whenever a composite record passes the area guard —
breakdown map present and the stated total *truthy (nonzero)* — the
Auditor records the area check with tolerance `max(10, total * 0.02)` and
emits exactly one high-severity Issue citing
`property_metrics.total_usable_area_sqm` precisely when the absolute
difference between the breakdown sum and the stated total exceeds that
tolerance; in particular Scenario A (breakdown office 100 / retail 50
against stated total 200) yields exactly that one high Issue, a check with
absolute difference 50, and `is_valid = false`.  When the stated total is
0 the truthiness guard skips the check entirely, which refutes the claim
as stated (see the counterexample). -/
theorem c5_area_breakdown_audit :
    (∀ (d : SingleData) (cy : ℤ) (pm : PropertyMetricsData)
        (bd : List (String × Option ℚ)) (t : ℚ),
        d.property_metrics = some pm → pm.breakdown_by_use = some bd →
        pm.total_usable_area_sqm = some t → t ≠ 0 →
        ((validateCalculations (.single d) "SINGLE" cy).issues.filter
            fun i => i.field = "property_metrics.total_usable_area_sqm") =
          (if jsAbs (sumBreakdown bd - t) > jsMax 10 (t * (2/100)) then
            [{ severity := "high", field := "property_metrics.total_usable_area_sqm",
               issue := "Total area (" ++ toString t ++ ") doesn't match sum of breakdown (" ++
                 toString (sumBreakdown bd) ++ ")",
               difference := some (sumBreakdown bd - t) }]
           else []) ∧
        ((validateCalculations (.single d) "SINGLE" cy).checks_performed.filter
            fun c => c.type = "area_breakdown_sum") =
          [{ type := "area_breakdown_sum", breakdown_sum := sumBreakdown bd, stated_total := t,
             difference := jsAbs (sumBreakdown bd - t),
             within_tolerance := decide (jsAbs (sumBreakdown bd - t) ≤ jsMax 10 (t * (2/100))) }]) ∧
    (validateCalculations (.single c5Scenario) "SINGLE" 2025).issues =
      [{ severity := "high", field := "property_metrics.total_usable_area_sqm",
         issue := "Total area (200) doesn't match sum of breakdown (150)",
         difference := some (-50) }] ∧
    (validateCalculations (.single c5Scenario) "SINGLE" 2025).checks_performed.map
      (fun c => c.difference) = [50] ∧
    (validateCalculations (.single c5Scenario) "SINGLE" 2025).is_valid = false := by
  refine ⟨?_, by decide, by decide, by decide⟩
  intro d cy pm bd t hpm hbd ht ht0
  have hIncNil : ((incomeAudit d).2.filter
      fun i => i.field = "property_metrics.total_usable_area_sqm") = [] := by
    rw [List.filter_eq_nil_iff]
    intro i hi
    simp only [incomeAudit_issue_field d i hi]
    decide
  have hYearNil : ((yearAudit d cy).filter
      fun i => i.field = "property_metrics.total_usable_area_sqm") = [] := by
    rw [List.filter_eq_nil_iff]
    intro i hi
    rcases yearAudit_issue_field d cy i hi with h2 | h2 <;> simp only [h2] <;> decide
  have hOccNil : ((occupancyAudit d).filter
      fun i => i.field = "property_metrics.total_usable_area_sqm") = [] := by
    rw [List.filter_eq_nil_iff]
    intro i hi
    simp only [occupancyAudit_issue_field d i hi]
    decide
  have hAreaSelf : ((areaAudit d).2.filter
      fun i => i.field = "property_metrics.total_usable_area_sqm") = (areaAudit d).2 := by
    rw [List.filter_eq_self]
    intro i hi
    simp only [areaAudit_issue_field d i hi]
    decide
  constructor
  · rw [validateCalculations_single_issues, List.filter_append, List.filter_append,
      List.filter_append, hIncNil, hYearNil, hOccNil, hAreaSelf, List.append_nil,
      List.append_nil, List.append_nil, areaAudit_of_guards d pm bd t hpm hbd ht ht0]
  · have hIncChkNil : ((incomeAudit d).1.filter fun c => c.type = "area_breakdown_sum") = [] := by
      rw [List.filter_eq_nil_iff]
      intro c hc
      simp only [incomeAudit_check_type d c hc]
      decide
    have hAreaChkSelf : ((areaAudit d).1.filter fun c => c.type = "area_breakdown_sum") =
        (areaAudit d).1 := by
      rw [List.filter_eq_self]
      intro c hc
      simp only [areaAudit_check_type d c hc]
      decide
    rw [validateCalculations_single_checks, List.filter_append, hIncChkNil, List.append_nil,
      hAreaChkSelf, areaAudit_of_guards d pm bd t hpm hbd ht ht0]

/-- Witness for C5: the universal part applied to Scenario A. -/
theorem c5_witness :
    ((validateCalculations (.single c5Scenario) "SINGLE" 2025).issues.filter
        fun i => i.field = "property_metrics.total_usable_area_sqm") =
      [{ severity := "high", field := "property_metrics.total_usable_area_sqm",
         issue := "Total area (200) doesn't match sum of breakdown (150)",
         difference := some (-50) }] ∧
    ((validateCalculations (.single c5Scenario) "SINGLE" 2025).checks_performed.filter
        fun c => c.type = "area_breakdown_sum") =
      [{ type := "area_breakdown_sum", breakdown_sum := 150, stated_total := 200,
         difference := 50, within_tolerance := false }] := by
  have h := c5_area_breakdown_audit.1 c5Scenario 2025
    { breakdown_by_use := some [("office", some 100), ("retail", some 50)],
      total_usable_area_sqm := some 200 }
    [("office", some 100), ("retail", some 50)] 200 rfl rfl rfl (by decide)
  refine ⟨?_, ?_⟩
  · rw [h.1]
    decide
  · rw [h.2]
    decide

/-! ## Claim C10 -/

/-- C10: in the breakdown-sum audits, a falsy breakdown entry (null —
e.g. a fabricated field the applicator erased — or zero) contributes 0 to
the computed sum wherever it sits in the map, and the audits still run on
such records: whenever the area (resp. income) guard holds, the
corresponding check is recorded over the remaining entries.  The source
spells the same `reduce((acc, val) => acc + (val || 0), 0)` out in both
branches; the model's `sumBreakdown` is that shared fold. -/
theorem c10_falsy_entries_contribute_zero :
    (∀ (l1 l2 : List (String × Option ℚ)) (k : String),
        sumBreakdown (l1 ++ (k, none) :: l2) = sumBreakdown (l1 ++ l2)) ∧
    (∀ (l1 l2 : List (String × Option ℚ)) (k : String),
        sumBreakdown (l1 ++ (k, some 0) :: l2) = sumBreakdown (l1 ++ l2)) ∧
    (∀ (d : SingleData) (cy : ℤ) (pm : PropertyMetricsData)
        (bd : List (String × Option ℚ)) (t : ℚ),
        d.property_metrics = some pm → pm.breakdown_by_use = some bd →
        pm.total_usable_area_sqm = some t → t ≠ 0 →
        { type := "area_breakdown_sum", breakdown_sum := sumBreakdown bd, stated_total := t,
          difference := jsAbs (sumBreakdown bd - t),
          within_tolerance := decide (jsAbs (sumBreakdown bd - t) ≤ jsMax 10 (t * (2/100))) } ∈
          (validateCalculations (.single d) "SINGLE" cy).checks_performed) ∧
    (∀ (d : SingleData) (cy : ℤ) (f : FinancialData)
        (bd : List (String × Option ℚ)) (t : ℚ),
        d.financial = some f → f.breakdown_by_use = some bd →
        f.total_rental_income_annual_eur = some t → t ≠ 0 →
        { type := "income_breakdown_sum", breakdown_sum := sumBreakdown bd, stated_total := t,
          difference := jsAbs (sumBreakdown bd - t),
          within_tolerance := decide (jsAbs (sumBreakdown bd - t) ≤ jsMax 1000 (t * (2/100))) } ∈
          (validateCalculations (.single d) "SINGLE" cy).checks_performed) := by
  refine ⟨?_, ?_, ?_, ?_⟩
  · intro l1 l2 k
    unfold sumBreakdown
    rw [List.foldl_append, List.foldl_append]
    simp [jsOrZero]
  · intro l1 l2 k
    unfold sumBreakdown
    rw [List.foldl_append, List.foldl_append]
    simp [jsOrZero]
  · intro d cy pm bd t hpm hbd ht ht0
    rw [validateCalculations_single_checks, areaAudit_of_guards d pm bd t hpm hbd ht ht0]
    exact List.mem_append_left _ (List.mem_singleton_self _)
  · intro d cy f bd t hf hbd ht ht0
    rw [validateCalculations_single_checks, incomeAudit_of_guards d f bd t hf hbd ht ht0]
    exact List.mem_append_right _ (List.mem_singleton_self _)

/-- The record of C10's witness: every breakdown entry already nulled. -/
def c10Record : SingleData :=
  { property_metrics := some
      { breakdown_by_use := some [("office", none), ("parking", none)],
        total_usable_area_sqm := some 100 },
    financial := some
      { breakdown_by_use := some [("rent", none)],
        total_rental_income_annual_eur := some 5000 } }

/-- Witness for C10 at a concrete input. -/
theorem c10_witness :
    sumBreakdown [(("office" : String), (none : Option ℚ)), ("parking", none)] = 0 ∧
    sumBreakdown ([(("a" : String), some (3 : ℚ))] ++ ("k", none) :: [("b", some 4)]) =
      sumBreakdown [(("a" : String), some (3 : ℚ)), ("b", some 4)] ∧
    { type := "area_breakdown_sum",
      breakdown_sum := sumBreakdown [(("office" : String), (none : Option ℚ)), ("parking", none)],
      stated_total := (100 : ℚ),
      difference := jsAbs (sumBreakdown [(("office" : String), (none : Option ℚ)), ("parking", none)] - 100),
      within_tolerance := decide (jsAbs (sumBreakdown [(("office" : String), (none : Option ℚ)), ("parking", none)] - 100) ≤ jsMax 10 (100 * (2/100))) } ∈
      (validateCalculations (.single c10Record) "SINGLE" 2025).checks_performed :=
  ⟨by decide,
   c10_falsy_entries_contribute_zero.1 [("a", some 3)] [("b", some 4)] "k",
   c10_falsy_entries_contribute_zero.2.2.1 c10Record 2025
     { breakdown_by_use := some [("office", none), ("parking", none)],
       total_usable_area_sqm := some 100 }
     [("office", none), ("parking", none)] 100 rfl rfl rfl (by decide)⟩

/-! ## Claim C8 -/

/-- C8 (amended): the built-year range check is guarded by *both* year
fields being truthy: whenever a composite record states a truthy
`original_year_built` *and* a truthy `completion_year`, the Auditor emits
exactly one medium-severity Issue for `project_details.original_year_built`
precisely when the built year lies outside `[1800, currentYear + 10]`;
with the completion year absent the check is skipped entirely (see the
counterexample). -/
theorem c8_built_year_range_guarded (d : SingleData) (cy : ℤ) (pd : ProjectDetailsData)
    (b c : ℚ) (hpd : d.project_details = some pd) (hb : pd.original_year_built = some b)
    (hb0 : b ≠ 0) (hc : pd.completion_year = some c) (hc0 : c ≠ 0) :
    ((validateCalculations (.single d) "SINGLE" cy).issues.filter
        fun i => i.field = "project_details.original_year_built") =
      (if b < 1800 ∨ b > (cy : ℚ) + 10 then
        [{ severity := "medium", field := "project_details.original_year_built",
           issue := "Year built (" ++ toString b ++ ") is outside reasonable range (1800-" ++
             toString (cy + 10) ++ ")" }]
       else []) := by
  have hAreaNil : ((areaAudit d).2.filter
      fun i => i.field = "project_details.original_year_built") = [] := by
    rw [List.filter_eq_nil_iff]
    intro i hi
    simp only [areaAudit_issue_field d i hi]
    decide
  have hIncNil : ((incomeAudit d).2.filter
      fun i => i.field = "project_details.original_year_built") = [] := by
    rw [List.filter_eq_nil_iff]
    intro i hi
    simp only [incomeAudit_issue_field d i hi]
    decide
  have hOccNil : ((occupancyAudit d).filter
      fun i => i.field = "project_details.original_year_built") = [] := by
    rw [List.filter_eq_nil_iff]
    intro i hi
    simp only [occupancyAudit_issue_field d i hi]
    decide
  rw [validateCalculations_single_issues, List.filter_append, List.filter_append,
    List.filter_append, hAreaNil, hIncNil, hOccNil,
    yearAudit_of_guards d pd b c cy hpd hb hb0 hc hc0, List.filter_append]
  simp only [List.nil_append]
  have hImpNil : (((if c < b then
      [{ severity := "high", field := "project_details",
         issue := "Completion year (" ++ toString c ++ ") is before construction year (" ++
           toString b ++ ")",
         note := some "This is logically impossible" }]
    else []) : List CalcIssue).filter
      fun i => i.field = "project_details.original_year_built") = [] := by
    split <;> simp
  rw [hImpNil, List.nil_append, List.append_nil]
  split <;> simp

/-- The record of C8's counterexample: built year 1500 (far outside the
range), completion year absent. -/
def c8Record : SingleData :=
  { project_details := some { original_year_built := some 1500, completion_year := none } }

/-- C8 counterexample: the built year 1500 lies outside
`[1800, currentYear + 10]`, yet with no completion year stated the Auditor
emits no Issue at all, refuting the claim as stated. -/
theorem c8_counterexample :
    ((1500 : ℚ) < 1800 ∨ (1500 : ℚ) > ((2025 : ℤ) : ℚ) + 10) ∧
    (validateCalculations (.single c8Record) "SINGLE" 2025).issues = [] :=
  ⟨by decide, by decide⟩

/-- The record of C8's witness: built 1500 and completion 2010 both stated. -/
def c8WitnessRecord : SingleData :=
  { project_details := some { original_year_built := some 1500, completion_year := some 2010 } }

/-- Witness for C8 at a concrete input. -/
theorem c8_witness :
    ((validateCalculations (.single c8WitnessRecord) "SINGLE" 2025).issues.filter
        fun i => i.field = "project_details.original_year_built") =
      [{ severity := "medium", field := "project_details.original_year_built",
         issue := "Year built (1500) is outside reasonable range (1800-2035)" }] := by
  have h := c8_built_year_range_guarded c8WitnessRecord 2025
    { original_year_built := some 1500, completion_year := some 2010 }
    1500 2010 rfl rfl (by decide) rfl (by decide)
  rw [h]
  decide

/-! ## Claim C7 -/

/-- C7 (amended): in composite whole-record comparison each breakdown map
is walked over the union of both sides' key sets, so a key present on only
one side is still compared (one comparison per union key) — but the absent
side reads as `undefined`, not null: a one-sided key whose present value
is non-null fails `Number` coercion and is reported as a `type_mismatch`
Difference at medium severity, not through the null-transition rule (which
applies only when the present side's value is itself null). -/
theorem c7_breakdown_union_walk :
    (∀ (basePath : String) (sb vb : Json) (opts : CompareOptions) (r : CompareReport),
        (compareBreakdownWith basePath sb vb opts r).statistics.fields_compared =
          r.statistics.fields_compared + (unionKeys sb vb).length) ∧
    (∀ (p : String) (w : Json) (r : CompareReport) (opts : CompareOptions), w ≠ Json.null →
        (compareNumericField p none (some w) r opts).differences =
          r.differences ++
            [{ field := p, severity := "medium", standard_value := some none,
               validated_value := some (some w), issue_type := some "type_mismatch",
               notes := some "One or both values are not valid numbers" }]) ∧
    (∀ (p : String) (w : Json) (r : CompareReport) (opts : CompareOptions), w ≠ Json.null →
        (compareNumericField p (some w) none r opts).differences =
          r.differences ++
            [{ field := p, severity := "medium", standard_value := some (some w),
               validated_value := some none, issue_type := some "type_mismatch",
               notes := some "One or both values are not valid numbers" }]) := by
  refine ⟨compareBreakdownWith_compared, ?_, ?_⟩
  · intro p w r opts hw
    unfold compareNumericField
    rw [if_neg (by intro hc; exact absurd hc.1 (by simp)),
        if_neg (by
          intro hc
          rcases hc with hc | hc
          · exact absurd hc (by simp)
          · exact hw (Option.some.inj hc))]
    rfl
  · intro p w r opts hw
    unfold compareNumericField
    rw [if_neg (by intro hc; exact absurd hc.2 (by simp)),
        if_neg (by
          intro hc
          rcases hc with hc | hc
          · exact hw (Option.some.inj hc)
          · exact absurd hc (by simp))]
    rcases hn : toNumberOpt (some w) with _ | x <;> rfl

/-- The standard-side record of C7's counterexample. -/
def c7Standard : Json :=
  Json.obj [("property_metrics", Json.obj
    [("breakdown_by_use", Json.obj [("office", Json.num 100)])])]

/-- The validated-side record of C7's counterexample: its breakdown has
the extra key `retail`. -/
def c7Validated : Json :=
  Json.obj [("property_metrics", Json.obj
    [("breakdown_by_use", Json.obj [("office", Json.num 100), ("retail", Json.num 50)])])]

/-- C7 counterexample: the key `retail` exists only on the validated side
(so the claim's null-transition rule would demand `added_missing_data`),
yet the whole-record comparison classifies it as a `type_mismatch` at
medium severity. -/
theorem c7_counterexample :
    ((compareSingleProperty c7Standard c7Validated {}).differences.filter
        (fun d => d.field = "property_metrics.breakdown_by_use.retail")).map
      (fun d => (d.issue_type, d.severity)) = [(some "type_mismatch", "medium")] ∧
    ((compareSingleProperty c7Standard c7Validated {}).differences.filter
        (fun d => d.issue_type = some "added_missing_data")) = [] ∧
    ((compareSingleProperty c7Standard c7Validated {}).differences.filter
        (fun d => d.issue_type = some "removed_fabrication")) = [] :=
  ⟨by decide, by decide, by decide⟩

/-- Witness for C7 at concrete inputs. -/
theorem c7_witness :
    (compareBreakdownWith "property_metrics.breakdown_by_use"
        (Json.obj [("office", Json.num 100)])
        (Json.obj [("office", Json.num 100), ("retail", Json.num 50)])
        { tolerance := some (1/100) } {}).statistics.fields_compared = 2 ∧
    (compareNumericField "q" none (some (Json.num 50)) {} {}).differences =
      [{ field := "q", severity := "medium", standard_value := some none,
         validated_value := some (some (Json.num 50)), issue_type := some "type_mismatch",
         notes := some "One or both values are not valid numbers" }] := by
  constructor
  · rw [c7_breakdown_union_walk.1 "property_metrics.breakdown_by_use"
      (Json.obj [("office", Json.num 100)])
      (Json.obj [("office", Json.num 100), ("retail", Json.num 50)])
      { tolerance := some (1/100) } {}]
    decide
  · exact c7_breakdown_union_walk.2.1 "q" (Json.num 50) {} {} (by decide)
